import Mathlib

/-!
Shallow embedding of the `/generate` request pipeline of
`src/diffusion/qwen_server.py` (the `generate_image` Flask handler and its
helper `upload_to_s3`), together with theorems settling the specification
claims about it.

Modelling conventions:
* A JSON request body is a record of optional fields (`none` = key absent).
* The process environment is a record of optional variables (`none` = unset);
  it may also carry variables the server never reads.
* The two external effects — the diffusion pipeline call (`pipe(...)`) and the
  S3 upload — are modelled by a `World` input that fixes their outcome
  (success, or a raised exception carrying a message), plus the fresh
  `uuid.uuid4()` string and the `datetime.now()` timestamp string.
* The handler is a pure function of request, environment and world, returning
  the HTTP response together with a trace of the arguments of every gateway
  (model) invocation and every sink (S3 upload) invocation.
-/

namespace QwenServer

/-- JSON body of a POST /generate request; `none` means the key is absent.
Mirrors the fields read by `generate_image` (qwen_server.py lines 78-131). -/
structure Request where
  prompt : Option String := none
  s3_bucket : Option String := none
  aws_access_key_id : Option String := none
  aws_secret_access_key : Option String := none
  aws_region : Option String := none
  negative_prompt : Option String := none
  positive_magic : Option String := none
  aspect_ratio : Option String := none
  num_inference_steps : Option Int := none
  true_cfg_scale : Option Rat := none
  seed : Option Int := none
  s3_key : Option String := none
deriving DecidableEq

/-- The process environment variables consulted by the handler (`os.getenv`,
lines 83-99), plus two variables (NEGATIVE_PROMPT, POSITIVE_MAGIC) that a
deployment may set but that the server code never reads — they are needed to
state claims about environment defaulting of those fields. -/
structure Env where
  S3_BUCKET : Option String := none
  AWS_ACCESS_KEY_ID : Option String := none
  AWS_SECRET_ACCESS_KEY : Option String := none
  AWS_REGION : Option String := none
  NUM_INFERENCE_STEPS : Option Int := none
  TRUE_CFG_SCALE : Option Rat := none
  DEFAULT_SEED : Option Int := none
  NEGATIVE_PROMPT : Option String := none
  POSITIVE_MAGIC : Option String := none
deriving DecidableEq

/-- Python truthiness of an optional string: `None` and the empty string are
falsy. Used by `if not prompt` (line 79) and `if not all([...])` (line 89). -/
def truthy : Option String → Bool
  | none => false
  | some s => s != ""

/-- Line 83: `data.get('s3_bucket', os.getenv('S3_BUCKET'))`. -/
def resolve_s3_bucket (data : Request) (env : Env) : Option String :=
  data.s3_bucket.orElse fun _ => env.S3_BUCKET

/-- Line 84: `data.get('aws_access_key_id', os.getenv('AWS_ACCESS_KEY_ID'))`. -/
def resolve_aws_access_key_id (data : Request) (env : Env) : Option String :=
  data.aws_access_key_id.orElse fun _ => env.AWS_ACCESS_KEY_ID

/-- Line 85: `data.get('aws_secret_access_key', os.getenv('AWS_SECRET_ACCESS_KEY'))`. -/
def resolve_aws_secret_access_key (data : Request) (env : Env) : Option String :=
  data.aws_secret_access_key.orElse fun _ => env.AWS_SECRET_ACCESS_KEY

/-- Line 86: `data.get('aws_region', os.getenv('AWS_REGION', 'us-east-1'))`. -/
def resolve_aws_region (data : Request) (env : Env) : String :=
  data.aws_region.getD (env.AWS_REGION.getD "us-east-1")

/-- Line 94: `data.get('negative_prompt', 'ugly, ...')` — note: no environment
variable is consulted; the hardcoded literal is the only fallback. -/
def resolve_negative_prompt (data : Request) : String :=
  data.negative_prompt.getD "ugly, deformed, disfigured, poor details, bad anatomy"

/-- Line 95: `data.get('positive_magic', 'Ultra HD, 4K, cinematic composition.')`
— note: no environment variable is consulted. -/
def resolve_positive_magic (data : Request) : String :=
  data.positive_magic.getD "Ultra HD, 4K, cinematic composition."

/-- Line 96: `data.get('aspect_ratio', '16:9')`. -/
def resolve_aspect_ratio (data : Request) : String :=
  data.aspect_ratio.getD "16:9"

/-- Line 97: `data.get('num_inference_steps', int(os.getenv('NUM_INFERENCE_STEPS', 50)))`. -/
def resolve_num_inference_steps (data : Request) (env : Env) : Int :=
  data.num_inference_steps.getD (env.NUM_INFERENCE_STEPS.getD 50)

/-- Line 98: `data.get('true_cfg_scale', float(os.getenv('TRUE_CFG_SCALE', 4.0)))`. -/
def resolve_true_cfg_scale (data : Request) (env : Env) : Rat :=
  data.true_cfg_scale.getD (env.TRUE_CFG_SCALE.getD 4)

/-- Line 99: `data.get('seed', int(os.getenv('DEFAULT_SEED', 42)))`. -/
def resolve_seed (data : Request) (env : Env) : Int :=
  data.seed.getD (env.DEFAULT_SEED.getD 42)

/-- The fixed aspect-ratio table of lines 101-109, as a lookup function. -/
def aspect_ratios : String → Option (Nat × Nat)
  | "1:1" => some (1328, 1328)
  | "16:9" => some (1024, 768)
  | "9:16" => some (928, 1664)
  | "4:3" => some (1472, 1140)
  | "3:4" => some (1140, 1472)
  | "3:2" => some (1584, 1056)
  | "2:3" => some (1056, 1584)
  | _ => none

/-- Error body of line 80. -/
def missing_prompt_error : String := "Missing required field: prompt"

/-- Error body of lines 90-92. -/
def s3_config_error : String :=
  "S3 configuration missing. Provide in request or set in environment variables"

/-- Error body of line 112 (the f-string interpolates the Python list repr of
the table keys, in insertion order). -/
def invalid_aspect_ratio_error : String :=
  "Invalid aspect ratio. Choose from: ['1:1', '16:9', '9:16', '4:3', '3:4', '3:2', '2:3']"

/-- The fully resolved job snapshot available after all three validation gates
of `generate_image` have passed (lines 78-114). -/
structure ResolvedJob where
  prompt : String
  s3_bucket : String
  aws_access_key_id : String
  aws_secret_access_key : String
  aws_region : String
  negative_prompt : String
  positive_magic : String
  aspect_ratio : String
  num_inference_steps : Int
  true_cfg_scale : Rat
  seed : Int
  width : Nat
  height : Nat
deriving DecidableEq

/-- Validation and resolution phase of `generate_image` (lines 78-114), with
the early `return jsonify({"error": ...}), 400` statements rendered as
`Except.error` carrying the error message. The order of the three gates is the
order of the source: prompt (line 79), S3 configuration (line 89), aspect
ratio (line 111). -/
def resolveJob (data : Request) (env : Env) : Except String ResolvedJob :=
  match data.prompt with
  | none => .error missing_prompt_error
  | some prompt =>
    if prompt = "" then .error missing_prompt_error else
    if truthy (resolve_s3_bucket data env) && truthy (resolve_aws_access_key_id data env)
        && truthy (resolve_aws_secret_access_key data env) then
      match aspect_ratios (resolve_aspect_ratio data) with
      | none => .error invalid_aspect_ratio_error
      | some wh =>
        .ok { prompt := prompt
              s3_bucket := (resolve_s3_bucket data env).getD ""
              aws_access_key_id := (resolve_aws_access_key_id data env).getD ""
              aws_secret_access_key := (resolve_aws_secret_access_key data env).getD ""
              aws_region := resolve_aws_region data env
              negative_prompt := resolve_negative_prompt data
              positive_magic := resolve_positive_magic data
              aspect_ratio := resolve_aspect_ratio data
              num_inference_steps := resolve_num_inference_steps data env
              true_cfg_scale := resolve_true_cfg_scale data env
              seed := resolve_seed data env
              width := wh.1
              height := wh.2 }
    else .error s3_config_error

/-- The keyword arguments of the `pipe(...)` call (lines 119-127), including
the seed handed to `torch.Generator(...).manual_seed(seed)`. -/
structure GatewayArgs where
  prompt : String
  negative_prompt : String
  width : Nat
  height : Nat
  num_inference_steps : Int
  true_cfg_scale : Rat
  generator_seed : Int
deriving DecidableEq

/-- The arguments `generate_image` hands to the model for a resolved job:
prompt composed as `prompt + " " + positive_magic` (line 120), the rest taken
verbatim from the job, generator seeded with the job's seed (line 126). -/
def gatewayArgs (job : ResolvedJob) : GatewayArgs :=
  { prompt := job.prompt ++ " " ++ job.positive_magic
    negative_prompt := job.negative_prompt
    width := job.width
    height := job.height
    num_inference_steps := job.num_inference_steps
    true_cfg_scale := job.true_cfg_scale
    generator_seed := job.seed }

/-- The arguments of the `upload_to_s3` call (line 133). -/
structure SinkArgs where
  s3_bucket : String
  s3_key : String
  aws_access_key_id : String
  aws_secret_access_key : String
  aws_region : String
deriving DecidableEq

/-- The URL constructed by `upload_to_s3` (line 60). -/
def s3_url (s3_bucket aws_region s3_key : String) : String :=
  "https://" ++ s3_bucket ++ ".s3." ++ aws_region ++ ".amazonaws.com/" ++ s3_key

/-- The derived storage key of line 131:
`f"generated_images/{timestamp}_{image_id}.png"`. -/
def derived_s3_key (timestamp image_id : String) : String :=
  "generated_images/" ++ timestamp ++ "_" ++ image_id ++ ".png"

/-- Outcome of the two external effects and the two fresh values drawn during
one request: the model call either returns an image or raises (carrying an
exception message), `uuid.uuid4()` yields `uuid`, `datetime.now().strftime`
yields `timestamp`, and the S3 upload either succeeds or raises. -/
structure World where
  gateway : Except String Unit
  uuid : String
  timestamp : String
  sink : Except String Unit

/-- The 200 response body of lines 135-149 (metadata fields inlined). -/
structure SuccessBody where
  image_url : String
  s3_bucket : String
  s3_key : String
  prompt : String
  negative_prompt : String
  aspect_ratio : String
  width : Nat
  height : Nat
  seed : Int
  timestamp : String
deriving DecidableEq

/-- HTTP response of the handler: 200 success body, 400 `{error: msg}`, or
500 `{error: msg}`. -/
inductive Response where
  | ok (body : SuccessBody)
  | badRequest (error : String)
  | serverError (error : String)
deriving DecidableEq

/-- The HTTP status code paired with each response shape. -/
def Response.status : Response → Nat
  | .ok _ => 200
  | .badRequest _ => 400
  | .serverError _ => 500

/-- Trace of external invocations observed during one request. -/
structure Trace where
  gatewayCalls : List GatewayArgs
  sinkCalls : List SinkArgs
deriving DecidableEq

/-- The empty trace: no model call, no upload. -/
def Trace.empty : Trace := { gatewayCalls := [], sinkCalls := [] }

/-- The storage key used for the upload: the request's `s3_key` if present,
else the derived key of line 131. -/
def request_s3_key (data : Request) (w : World) : String :=
  data.s3_key.getD (derived_s3_key w.timestamp w.uuid)

/-- The arguments `generate_image` hands to `upload_to_s3` (line 133). -/
def sinkArgs (job : ResolvedJob) (data : Request) (w : World) : SinkArgs :=
  { s3_bucket := job.s3_bucket
    s3_key := request_s3_key data w
    aws_access_key_id := job.aws_access_key_id
    aws_secret_access_key := job.aws_secret_access_key
    aws_region := job.aws_region }

/-- The 200 body assembled at lines 135-149. -/
def successBody (job : ResolvedJob) (data : Request) (w : World) : SuccessBody :=
  { image_url := s3_url job.s3_bucket job.aws_region (request_s3_key data w)
    s3_bucket := job.s3_bucket
    s3_key := request_s3_key data w
    prompt := job.prompt
    negative_prompt := job.negative_prompt
    aspect_ratio := job.aspect_ratio
    width := job.width
    height := job.height
    seed := job.seed
    timestamp := w.timestamp }

/-- The whole `/generate` handler (lines 73-153): validation and resolution,
then the model call (whose exception is caught by the handler's
`except Exception` and returned as a 500 with `str(e)`), then key derivation
(line 131) and the S3 upload (same exception handling), then the 200 body. -/
def generate_image (data : Request) (env : Env) (w : World) : Response × Trace :=
  match resolveJob data env with
  | .error msg => (.badRequest msg, Trace.empty)
  | .ok job =>
    match w.gateway with
    | .error e => (.serverError e, { gatewayCalls := [gatewayArgs job], sinkCalls := [] })
    | .ok _ =>
      match w.sink with
      | .error e =>
        (.serverError e,
         { gatewayCalls := [gatewayArgs job], sinkCalls := [sinkArgs job data w] })
      | .ok _ =>
        (.ok (successBody job data w),
         { gatewayCalls := [gatewayArgs job], sinkCalls := [sinkArgs job data w] })

/-! Shared concrete inputs, used by the closed witness and counterexample
theorems below. -/

/-- A world where both effects succeed. -/
def world_ok : World :=
  { gateway := .ok ()
    uuid := "c4a2f0aa-14aa-4f00-8000-1234567890ab"
    timestamp := "20250101_120000"
    sink := .ok () }

/-- A second world for the same second: same timestamp, different uuid. -/
def world_ok2 : World :=
  { gateway := .ok ()
    uuid := "77777777-2bb2-4f00-8000-abcdefabcdef"
    timestamp := "20250101_120000"
    sink := .ok () }

/-- A request supplying a prompt and the full storage configuration, all other
fields defaulted. -/
def request_base : Request :=
  { prompt := some "a red bicycle"
    s3_bucket := some "bucket"
    aws_access_key_id := some "AKIA"
    aws_secret_access_key := some "SECRET" }

/-- The job `request_base` resolves to under an empty environment. -/
def job_base : ResolvedJob :=
  { prompt := "a red bicycle"
    s3_bucket := "bucket"
    aws_access_key_id := "AKIA"
    aws_secret_access_key := "SECRET"
    aws_region := "us-east-1"
    negative_prompt := "ugly, deformed, disfigured, poor details, bad anatomy"
    positive_magic := "Ultra HD, 4K, cinematic composition."
    aspect_ratio := "16:9"
    num_inference_steps := 50
    true_cfg_scale := 4
    seed := 42
    width := 1024
    height := 768 }

/-- Like `request_base` but overriding positive_magic with the empty string. -/
def request_c9 : Request :=
  { prompt := some "a dog"
    s3_bucket := some "bucket"
    aws_access_key_id := some "AKIA"
    aws_secret_access_key := some "SECRET"
    positive_magic := some "" }

/-- The job `request_c9` resolves to under an empty environment. -/
def job_c9 : ResolvedJob :=
  { prompt := "a dog"
    s3_bucket := "bucket"
    aws_access_key_id := "AKIA"
    aws_secret_access_key := "SECRET"
    aws_region := "us-east-1"
    negative_prompt := "ugly, deformed, disfigured, poor details, bad anatomy"
    positive_magic := ""
    aspect_ratio := "16:9"
    num_inference_steps := 50
    true_cfg_scale := 4
    seed := 42
    width := 1024
    height := 768 }

/-- A request that supplies s3_bucket as the empty string (credentials
present and non-empty). -/
def request_c10 : Request :=
  { prompt := some "x"
    s3_bucket := some ""
    aws_access_key_id := some "AKIA"
    aws_secret_access_key := some "SECRET" }

/-- An environment with the full storage configuration set. -/
def env_c10 : Env :=
  { S3_BUCKET := some "envbucket"
    AWS_ACCESS_KEY_ID := some "ENVKEY"
    AWS_SECRET_ACCESS_KEY := some "ENVSECRET" }

/-- A request with a valid prompt and full storage configuration but an
unsupported aspect-ratio label. -/
def request_c1 : Request :=
  { prompt := some "x"
    s3_bucket := some "bucket"
    aws_access_key_id := some "AKIA"
    aws_secret_access_key := some "SECRET"
    aspect_ratio := some "5:4" }

/-- A request with only a prompt: the storage configuration is unresolved. -/
def request_c2 : Request := { prompt := some "y" }

/-- A request with full storage configuration and an unsupported
aspect-ratio label. -/
def request_c2b : Request :=
  { prompt := some "y"
    s3_bucket := some "bucket"
    aws_access_key_id := some "AKIA"
    aws_secret_access_key := some "SECRET"
    aspect_ratio := some "7:5" }

/-- A request omitting negative_prompt and positive_magic, with prompt and
storage supplied. -/
def request_c3 : Request :=
  { prompt := some "x"
    s3_bucket := some "bucket"
    aws_access_key_id := some "AKIA"
    aws_secret_access_key := some "SECRET" }

/-- An environment supplying (never-read) defaults for negative_prompt and
positive_magic. -/
def env_c3 : Env :=
  { NEGATIVE_PROMPT := some "nice"
    POSITIVE_MAGIC := some "shiny" }

/-! Helper lemmas characterising the branches of `resolveJob` and
`generate_image`. -/

/-- An absent prompt fails the first gate. -/
theorem resolveJob_prompt_none (data : Request) (env : Env) (h : data.prompt = none) :
    resolveJob data env = .error missing_prompt_error := by
  unfold resolveJob
  rw [h]

/-- An empty prompt fails the first gate. -/
theorem resolveJob_prompt_empty (data : Request) (env : Env) (h : data.prompt = some "") :
    resolveJob data env = .error missing_prompt_error := by
  unfold resolveJob
  rw [h]
  simp

/-- A falsy storage configuration fails the second gate. -/
theorem resolveJob_storage_missing (data : Request) (env : Env) (p : String)
    (hp : data.prompt = some p) (hne : p ≠ "")
    (hs : (truthy (resolve_s3_bucket data env) && truthy (resolve_aws_access_key_id data env)
        && truthy (resolve_aws_secret_access_key data env)) = false) :
    resolveJob data env = .error s3_config_error := by
  unfold resolveJob
  rw [hp]
  simp [hne, hs]

/-- A label outside the table fails the third gate. -/
theorem resolveJob_bad_aspect (data : Request) (env : Env) (p : String)
    (hp : data.prompt = some p) (hne : p ≠ "")
    (hs : (truthy (resolve_s3_bucket data env) && truthy (resolve_aws_access_key_id data env)
        && truthy (resolve_aws_secret_access_key data env)) = true)
    (ha : aspect_ratios (resolve_aspect_ratio data) = none) :
    resolveJob data env = .error invalid_aspect_ratio_error := by
  unfold resolveJob
  rw [hp]
  simp [hne, hs, ha]

/-- The only error messages `resolveJob` can produce are the three bodies of
lines 80, 91 and 112. -/
theorem resolveJob_error_msg (data : Request) (env : Env) (m : String)
    (h : resolveJob data env = .error m) :
    m = missing_prompt_error ∨ m = s3_config_error ∨ m = invalid_aspect_ratio_error := by
  unfold resolveJob at h
  split at h
  · injection h with h
    exact Or.inl h.symm
  · split at h
    · injection h with h
      exact Or.inl h.symm
    · split at h
      · split at h
        · injection h with h
          exact Or.inr (Or.inr h.symm)
        · exact Except.noConfusion h
      · injection h with h
        exact Or.inr (Or.inl h.symm)

/-- When `resolveJob` succeeds, every field of the job is the corresponding
resolved value, the prompt was present and non-empty, the storage
configuration was truthy, and (width, height) is the table entry for the
resolved aspect ratio. -/
theorem resolveJob_ok_fields (data : Request) (env : Env) (j : ResolvedJob)
    (h : resolveJob data env = .ok j) :
    data.prompt = some j.prompt ∧ j.prompt ≠ "" ∧
    truthy (resolve_s3_bucket data env) = true ∧
    truthy (resolve_aws_access_key_id data env) = true ∧
    truthy (resolve_aws_secret_access_key data env) = true ∧
    j.s3_bucket = (resolve_s3_bucket data env).getD "" ∧
    j.aws_access_key_id = (resolve_aws_access_key_id data env).getD "" ∧
    j.aws_secret_access_key = (resolve_aws_secret_access_key data env).getD "" ∧
    j.aws_region = resolve_aws_region data env ∧
    j.negative_prompt = resolve_negative_prompt data ∧
    j.positive_magic = resolve_positive_magic data ∧
    j.aspect_ratio = resolve_aspect_ratio data ∧
    j.num_inference_steps = resolve_num_inference_steps data env ∧
    j.true_cfg_scale = resolve_true_cfg_scale data env ∧
    j.seed = resolve_seed data env ∧
    aspect_ratios j.aspect_ratio = some (j.width, j.height) := by
  unfold resolveJob at h
  split at h
  · exact Except.noConfusion h
  · rename_i p hp
    split at h
    · exact Except.noConfusion h
    · rename_i hne
      split at h
      · rename_i hs
        split at h
        · exact Except.noConfusion h
        · rename_i wh ha
          injection h with h
          subst h
          simp only [Bool.and_eq_true] at hs
          exact ⟨hp, hne, hs.1.1, hs.1.2, hs.2, rfl, rfl, rfl, rfl, rfl, rfl, rfl,
            rfl, rfl, rfl, by rw [ha]⟩
      · exact Except.noConfusion h

/-- If `resolveJob` reports an invalid aspect ratio, the storage gate had
already passed. -/
theorem resolveJob_invalid_aspect_inv (data : Request) (env : Env)
    (h : resolveJob data env = .error invalid_aspect_ratio_error) :
    truthy (resolve_s3_bucket data env) = true ∧
    truthy (resolve_aws_access_key_id data env) = true ∧
    truthy (resolve_aws_secret_access_key data env) = true := by
  unfold resolveJob at h
  split at h
  · injection h with h
    exact absurd h (by decide)
  · split at h
    · injection h with h
      exact absurd h (by decide)
    · split at h
      · rename_i hs
        simp only [Bool.and_eq_true] at hs
        exact ⟨hs.1.1, hs.1.2, hs.2⟩
      · injection h with h
        exact absurd h (by decide)

/-- A validation failure produces the 400 response and leaves both traces
empty. -/
theorem generate_image_error (data : Request) (env : Env) (w : World) (m : String)
    (h : resolveJob data env = .error m) :
    generate_image data env w = (.badRequest m, Trace.empty) := by
  unfold generate_image
  rw [h]

/-- A 400 response can only come from a validation failure with the same
message. -/
theorem generate_image_badRequest_inv (data : Request) (env : Env) (w : World) (m : String)
    (h : (generate_image data env w).1 = .badRequest m) :
    resolveJob data env = .error m := by
  unfold generate_image at h
  split at h
  · rename_i msg hr
    injection h with h
    rw [hr, h]
  · rename_i j hr
    split at h
    · exact Response.noConfusion h
    · split at h
      · exact Response.noConfusion h
      · exact Response.noConfusion h

/-- Once validation succeeds the model is invoked exactly once, with the
arguments of `gatewayArgs`, whatever the world does. -/
theorem generate_image_gatewayCalls (data : Request) (env : Env) (w : World) (j : ResolvedJob)
    (h : resolveJob data env = .ok j) :
    (generate_image data env w).2.gatewayCalls = [gatewayArgs j] := by
  unfold generate_image
  rw [h]
  rcases w.gateway with e | u
  · rfl
  · rcases w.sink with e | u <;> rfl

/-- Once validation and the model call succeed the sink is invoked exactly
once, with the arguments of `sinkArgs`. -/
theorem generate_image_sinkCalls (data : Request) (env : Env) (w : World) (j : ResolvedJob)
    (h : resolveJob data env = .ok j) (hg : w.gateway = .ok ()) :
    (generate_image data env w).2.sinkCalls = [sinkArgs j data w] := by
  unfold generate_image
  rw [h, hg]
  rcases w.sink with e | u <;> rfl

/-- A 200 response can only arise from a resolved job with both effects
succeeding, and its body is `successBody`. -/
theorem generate_image_ok_inv (data : Request) (env : Env) (w : World) (b : SuccessBody)
    (h : (generate_image data env w).1 = .ok b) :
    ∃ j, resolveJob data env = .ok j ∧ b = successBody j data w := by
  unfold generate_image at h
  split at h
  · exact Response.noConfusion h
  · rename_i j hr
    split at h
    · exact Response.noConfusion h
    · split at h
      · exact Response.noConfusion h
      · injection h with h
        exact ⟨j, hr, h.symm⟩

/-- A gateway invocation can only come from a successfully resolved job, and
its arguments are `gatewayArgs` of that job. -/
theorem generate_image_gatewayCalls_inv (data : Request) (env : Env) (w : World)
    (args : GatewayArgs)
    (h : (generate_image data env w).2.gatewayCalls = [args]) :
    ∃ j, resolveJob data env = .ok j ∧ args = gatewayArgs j := by
  unfold generate_image at h
  split at h
  · simp [Trace.empty] at h
  · rename_i j hr
    split at h
    · simp at h
      exact ⟨j, hr, h.symm⟩
    · split at h <;> simp at h <;> exact ⟨j, hr, h.symm⟩

/-- A sink invocation can only come from a successfully resolved job, and its
arguments are `sinkArgs` of that job. -/
theorem generate_image_sinkCalls_inv (data : Request) (env : Env) (w : World)
    (args : SinkArgs)
    (h : (generate_image data env w).2.sinkCalls = [args]) :
    ∃ j, resolveJob data env = .ok j ∧ args = sinkArgs j data w := by
  unfold generate_image at h
  split at h
  · simp [Trace.empty] at h
  · rename_i j hr
    split at h
    · simp at h
    · split at h <;> simp at h <;> exact ⟨j, hr, h.symm⟩

/-- The prompt handed to the model is always the request prompt, a single
space, and the resolved positive magic. -/
theorem gateway_prompt_eq (data : Request) (env : Env) (w : World)
    (args : GatewayArgs) (p : String)
    (hp : data.prompt = some p)
    (hcall : (generate_image data env w).2.gatewayCalls = [args]) :
    args.prompt = p ++ " " ++ resolve_positive_magic data := by
  obtain ⟨j, hj, hargs⟩ := generate_image_gatewayCalls_inv data env w args hcall
  obtain ⟨hjp, -, -, -, -, -, -, -, -, -, hmagic, -⟩ := resolveJob_ok_fields data env j hj
  have hpj : p = j.prompt := Option.some.inj (hp ▸ hjp)
  rw [hargs]
  show j.prompt ++ " " ++ j.positive_magic = p ++ " " ++ resolve_positive_magic data
  rw [hmagic, hpj]

/-- For a fixed timestamp, the derived key determines the unique identifier. -/
theorem derived_s3_key_inj (ts u1 u2 : String)
    (h : derived_s3_key ts u1 = derived_s3_key ts u2) : u1 = u2 := by
  have hd := congrArg String.data h
  simp only [derived_s3_key, String.data_append, List.append_assoc] at hd
  have h1 := List.append_cancel_left hd
  have h2 := List.append_cancel_left h1
  have h3 := List.append_cancel_left h2
  exact String.ext (List.append_cancel_right h3)

/-- Sanity: `request_base` resolves exactly to `job_base`. -/
theorem resolveJob_request_base : resolveJob request_base {} = .ok job_base := rfl

/-- Sanity: `request_c9` resolves exactly to `job_c9`. -/
theorem resolveJob_request_c9 : resolveJob request_c9 {} = .ok job_c9 := rfl

/-! Claim theorems. -/

/-- C4: for every validated request, the prompt text handed to the model
equals prompt + " " + positive_magic (single space separator, magic suffix
always appended), both for the default magic "Ultra HD, 4K, cinematic
composition." and for a caller-overridden one. -/
theorem C4_composed_prompt (data : Request) (env : Env) (w : World)
    (args : GatewayArgs) (p : String)
    (hp : data.prompt = some p)
    (hcall : (generate_image data env w).2.gatewayCalls = [args]) :
    args.prompt = p ++ " " ++ resolve_positive_magic data ∧
    (data.positive_magic = none → args.prompt = p ++ " " ++ "Ultra HD, 4K, cinematic composition.") ∧
    (∀ m, data.positive_magic = some m → args.prompt = p ++ " " ++ m) := by
  have h := gateway_prompt_eq data env w args p hp hcall
  refine ⟨h, fun hd => ?_, fun m hm => ?_⟩
  · rw [h]
    simp [resolve_positive_magic, hd]
  · rw [h]
    simp [resolve_positive_magic, hm]

/-- C4 witness: a concrete all-defaults request whose composed prompt is the
prompt, one space, and the default magic suffix. -/
theorem C4_composed_prompt_witness :
    (gatewayArgs job_base).prompt = "a red bicycle" ++ " " ++ resolve_positive_magic request_base :=
  (C4_composed_prompt request_base {} world_ok (gatewayArgs job_base) "a red bicycle"
    rfl rfl).1

/-- C5: a request with a missing or empty prompt fails with the
missing-prompt 400 error before any other processing: the gateway and the
sink observe zero invocations. -/
theorem C5_missing_prompt (data : Request) (env : Env) (w : World)
    (h : data.prompt = none ∨ data.prompt = some "") :
    (generate_image data env w).1 = .badRequest missing_prompt_error ∧
    ((generate_image data env w).1).status = 400 ∧
    (generate_image data env w).2.gatewayCalls = [] ∧
    (generate_image data env w).2.sinkCalls = [] := by
  have hr : resolveJob data env = .error missing_prompt_error := by
    rcases h with h | h
    · exact resolveJob_prompt_none data env h
    · exact resolveJob_prompt_empty data env h
  rw [generate_image_error data env w _ hr]
  exact ⟨rfl, rfl, rfl, rfl⟩

/-- C5 witness: the empty request (no prompt at all) observes the 400 and the
empty traces. -/
theorem C5_missing_prompt_witness :
    (generate_image {} {} world_ok).1 = .badRequest missing_prompt_error ∧
    ((generate_image {} {} world_ok).1).status = 400 ∧
    (generate_image {} {} world_ok).2.gatewayCalls = [] ∧
    (generate_image {} {} world_ok).2.sinkCalls = [] :=
  C5_missing_prompt {} {} world_ok (Or.inl rfl)

/-- C9: a request that supplies positive_magic as the empty string has that
empty string used as-is (it is not replaced by the default), so the model
receives the prompt followed by a single trailing space. -/
theorem C9_empty_positive_magic (data : Request) (env : Env) (w : World)
    (args : GatewayArgs) (p : String)
    (hm : data.positive_magic = some "") (hp : data.prompt = some p)
    (hcall : (generate_image data env w).2.gatewayCalls = [args]) :
    args.prompt = p ++ " " := by
  have h := gateway_prompt_eq data env w args p hp hcall
  rw [h]
  simp [resolve_positive_magic, hm]

/-- C9 witness: a concrete request overriding positive_magic with "". -/
theorem C9_empty_positive_magic_witness :
    (gatewayArgs job_c9).prompt = "a dog" ++ " " :=
  C9_empty_positive_magic request_c9 {} world_ok (gatewayArgs job_c9) "a dog" rfl rfl rfl

/-- C10: an empty string supplied in the request for s3_bucket,
aws_access_key_id or aws_secret_access_key shadows the environment default
(the environment is never consulted for a field present in the request), so
the request fails with the 400 storage-configuration error even when the
corresponding environment variable is set. -/
theorem C10_empty_string_shadows_env (data : Request) (env : Env) (w : World) (p : String)
    (hp : data.prompt = some p) (hne : p ≠ "")
    (h : data.s3_bucket = some "" ∨ data.aws_access_key_id = some ""
        ∨ data.aws_secret_access_key = some "") :
    (generate_image data env w).1 = .badRequest s3_config_error ∧
    ((generate_image data env w).1).status = 400 := by
  have hs : (truthy (resolve_s3_bucket data env) && truthy (resolve_aws_access_key_id data env)
      && truthy (resolve_aws_secret_access_key data env)) = false := by
    rcases h with h | h | h
    · simp [resolve_s3_bucket, h, truthy, Option.orElse]
    · simp [resolve_aws_access_key_id, h, truthy, Option.orElse]
    · simp [resolve_aws_secret_access_key, h, truthy, Option.orElse]
  rw [generate_image_error data env w _ (resolveJob_storage_missing data env p hp hne hs)]
  exact ⟨rfl, rfl⟩

/-- C10 witness: the request supplies s3_bucket as "" while the environment
has S3_BUCKET and both credentials set; the outcome is still the 400 storage
error. -/
theorem C10_empty_string_shadows_env_witness :
    (generate_image request_c10 env_c10 world_ok).1 = .badRequest s3_config_error ∧
    ((generate_image request_c10 env_c10 world_ok).1).status = 400 :=
  C10_empty_string_shadows_env request_c10 env_c10 world_ok "x" rfl (by decide) (Or.inl rfl)

/-- C6: every request has exactly one HTTP outcome: 200 with the success body
on full success; 400 with one of the three validation error messages; or 500
carrying, verbatim, the message of the inference or persistence failure. -/
theorem C6_response_contract :
    ∀ (data : Request) (env : Env) (w : World),
      (∃ b j, (generate_image data env w).1 = .ok b ∧
        ((generate_image data env w).1).status = 200 ∧
        resolveJob data env = .ok j ∧ b = successBody j data w) ∨
      (∃ m, (generate_image data env w).1 = .badRequest m ∧
        ((generate_image data env w).1).status = 400 ∧
        (m = missing_prompt_error ∨ m = s3_config_error ∨ m = invalid_aspect_ratio_error)) ∨
      (∃ m, (generate_image data env w).1 = .serverError m ∧
        ((generate_image data env w).1).status = 500 ∧
        (w.gateway = .error m ∨ w.sink = .error m)) := by
  intro data env w
  cases hr : resolveJob data env with
  | error m =>
    right; left
    rw [generate_image_error data env w m hr]
    exact ⟨m, rfl, rfl, resolveJob_error_msg data env m hr⟩
  | ok j =>
    cases hg : w.gateway with
    | error e =>
      right; right
      refine ⟨e, ?_, ?_, Or.inl rfl⟩ <;> simp [generate_image, hr, hg, Response.status]
    | ok u =>
      cases u
      cases hs : w.sink with
      | error e =>
        right; right
        refine ⟨e, ?_, ?_, Or.inr rfl⟩ <;> simp [generate_image, hr, hg, hs, Response.status]
      | ok u =>
        cases u
        left
        refine ⟨successBody j data w, j, ?_, ?_, rfl, rfl⟩ <;>
          simp [generate_image, hr, hg, hs, Response.status]

/-- C7: when the caller supplies no storage key, the persisted key has the
exact shape generated_images/{timestamp}_{uuid}.png built from the fresh
world values (not from any job field), and for a fixed timestamp two distinct
fresh identifiers always yield distinct keys. -/
theorem C7_derived_key :
    (∀ (data : Request) (env : Env) (w : World) (args : SinkArgs),
        data.s3_key = none →
        (generate_image data env w).2.sinkCalls = [args] →
        args.s3_key = "generated_images/" ++ w.timestamp ++ "_" ++ w.uuid ++ ".png") ∧
    (∀ ts u1 u2 : String, u1 ≠ u2 → derived_s3_key ts u1 ≠ derived_s3_key ts u2) := by
  constructor
  · intro data env w args hkey hcall
    obtain ⟨j, hj, hargs⟩ := generate_image_sinkCalls_inv data env w args hcall
    rw [hargs]
    show request_s3_key data w = _
    simp [request_s3_key, hkey, derived_s3_key]
  · intro ts u1 u2 hne heq
    exact hne (derived_s3_key_inj ts u1 u2 heq)

/-- C7 witness: a concrete successful run with no caller key uses the derived
key, and two concrete distinct identifiers in the same second give distinct
keys. -/
theorem C7_derived_key_witness :
    (sinkArgs job_base request_base world_ok).s3_key
      = "generated_images/" ++ world_ok.timestamp ++ "_" ++ world_ok.uuid ++ ".png" ∧
    derived_s3_key "20250101_120000" world_ok.uuid
      ≠ derived_s3_key "20250101_120000" world_ok2.uuid :=
  ⟨C7_derived_key.1 request_base {} world_ok (sinkArgs job_base request_base world_ok) rfl rfl,
   C7_derived_key.2 "20250101_120000" world_ok.uuid world_ok2.uuid (by decide)⟩

/-- C8: the gateway invocation is deterministic in the resolved job — two
invocations whose requests resolve to the same ResolvedJob hand the model
identical arguments — and the pseudorandom generator is seeded exactly with
the job's seed. -/
theorem C8_gateway_determinism (d1 d2 : Request) (e1 e2 : Env) (w1 w2 : World)
    (j : ResolvedJob) (a1 a2 : GatewayArgs)
    (h1 : resolveJob d1 e1 = .ok j) (h2 : resolveJob d2 e2 = .ok j)
    (c1 : (generate_image d1 e1 w1).2.gatewayCalls = [a1])
    (c2 : (generate_image d2 e2 w2).2.gatewayCalls = [a2]) :
    a1 = a2 ∧ a1.generator_seed = j.seed := by
  rw [generate_image_gatewayCalls d1 e1 w1 j h1] at c1
  rw [generate_image_gatewayCalls d2 e2 w2 j h2] at c2
  have e1 : gatewayArgs j = a1 := (List.cons.injEq _ _ _ _ ▸ c1).1
  have e2 : gatewayArgs j = a2 := (List.cons.injEq _ _ _ _ ▸ c2).1
  exact ⟨e1 ▸ e2, e1 ▸ rfl⟩

/-- C8 witness: two runs of the same resolved job in different worlds (fresh
uuids) receive identical model arguments, seeded with the job's seed 42. -/
theorem C8_gateway_determinism_witness :
    gatewayArgs job_base = gatewayArgs job_base ∧
    (gatewayArgs job_base).generator_seed = job_base.seed :=
  C8_gateway_determinism request_base request_base {} {} world_ok world_ok2 job_base
    (gatewayArgs job_base) (gatewayArgs job_base) rfl rfl rfl rfl

/-- C1 (amended): the table maps the seven supported labels exactly to the
claimed pairs and every 200 body carries the table pair of its label; a
request that passes the prompt and storage gates and whose aspect_ratio is
not a key fails with the invalid-aspect-ratio error; and for every request
whose aspect_ratio is not a key the model gateway is never invoked. -/
theorem C1_aspect_ratio_table :
    (aspect_ratios "1:1" = some (1328, 1328) ∧ aspect_ratios "16:9" = some (1024, 768) ∧
     aspect_ratios "9:16" = some (928, 1664) ∧ aspect_ratios "4:3" = some (1472, 1140) ∧
     aspect_ratios "3:4" = some (1140, 1472) ∧ aspect_ratios "3:2" = some (1584, 1056) ∧
     aspect_ratios "2:3" = some (1056, 1584)) ∧
    (∀ (data : Request) (env : Env) (w : World) (b : SuccessBody),
        (generate_image data env w).1 = .ok b →
        aspect_ratios b.aspect_ratio = some (b.width, b.height)) ∧
    (∀ (data : Request) (env : Env) (w : World) (p : String),
        data.prompt = some p → p ≠ "" →
        (truthy (resolve_s3_bucket data env) && truthy (resolve_aws_access_key_id data env)
          && truthy (resolve_aws_secret_access_key data env)) = true →
        aspect_ratios (resolve_aspect_ratio data) = none →
        (generate_image data env w).1 = .badRequest invalid_aspect_ratio_error) ∧
    (∀ (data : Request) (env : Env) (w : World),
        aspect_ratios (resolve_aspect_ratio data) = none →
        (generate_image data env w).2.gatewayCalls = []) := by
  refine ⟨⟨rfl, rfl, rfl, rfl, rfl, rfl, rfl⟩, ?_, ?_, ?_⟩
  · intro data env w b hok
    obtain ⟨j, hj, hb⟩ := generate_image_ok_inv data env w b hok
    obtain ⟨-, -, -, -, -, -, -, -, -, -, -, -, -, -, -, hwh⟩ :=
      resolveJob_ok_fields data env j hj
    rw [hb]
    exact hwh
  · intro data env w p hp hne hs ha
    rw [generate_image_error data env w _ (resolveJob_bad_aspect data env p hp hne hs ha)]
  · intro data env w ha
    cases hr : resolveJob data env with
    | error m =>
      rw [generate_image_error data env w m hr]
      rfl
    | ok j =>
      obtain ⟨-, -, -, -, -, -, -, -, -, -, -, hja, -, -, -, hwh⟩ :=
        resolveJob_ok_fields data env j hr
      rw [hja, ha] at hwh
      exact Option.noConfusion hwh

/-- C1 witness: a concrete request with prompt "x", full storage
configuration and aspect_ratio "5:4" gets the invalid-aspect-ratio 400 and
zero gateway calls. -/
theorem C1_aspect_ratio_table_witness :
    (generate_image request_c1 {} world_ok).1 = .badRequest invalid_aspect_ratio_error ∧
    (generate_image request_c1 {} world_ok).2.gatewayCalls = [] :=
  ⟨C1_aspect_ratio_table.2.2.1 request_c1 {} world_ok "x" rfl (by decide) rfl rfl,
   C1_aspect_ratio_table.2.2.2 request_c1 {} world_ok rfl⟩

/-- C1 counterexample: a request with non-empty prompt "x", unsupported
aspect_ratio "5:4" and no storage configuration anywhere fails with the
storage-configuration error, not the invalid-aspect-ratio error the claim
promises for every request with an unsupported label. -/
theorem C1_counterexample :
    (generate_image { prompt := some "x", aspect_ratio := some "5:4" } {} world_ok).1
      = .badRequest s3_config_error ∧
    s3_config_error ≠ invalid_aspect_ratio_error :=
  ⟨rfl, by decide⟩

/-- C2 (amended): validation runs prompt first, then storage configuration,
then aspect_ratio: a request with a non-empty prompt whose storage
configuration does not resolve fails with the storage error even when
aspect_ratio is invalid, and the invalid-aspect-ratio error is only reachable
once the storage configuration resolves. -/
theorem C2_validation_order :
    (∀ (data : Request) (env : Env) (w : World) (p : String),
        data.prompt = some p → p ≠ "" →
        (truthy (resolve_s3_bucket data env) && truthy (resolve_aws_access_key_id data env)
          && truthy (resolve_aws_secret_access_key data env)) = false →
        (generate_image data env w).1 = .badRequest s3_config_error) ∧
    (∀ (data : Request) (env : Env) (w : World),
        (generate_image data env w).1 = .badRequest invalid_aspect_ratio_error →
        truthy (resolve_s3_bucket data env) = true ∧
        truthy (resolve_aws_access_key_id data env) = true ∧
        truthy (resolve_aws_secret_access_key data env) = true) := by
  constructor
  · intro data env w p hp hne hs
    rw [generate_image_error data env w _ (resolveJob_storage_missing data env p hp hne hs)]
  · intro data env w h
    exact resolveJob_invalid_aspect_inv data env (generate_image_badRequest_inv data env w _ h)

/-- C2 witness: a prompt-only request gets the storage 400; a request that
did get the invalid-aspect-ratio 400 had a truthy bucket. -/
theorem C2_validation_order_witness :
    (generate_image request_c2 {} world_ok).1 = .badRequest s3_config_error ∧
    truthy (resolve_s3_bucket request_c2b {}) = true :=
  ⟨C2_validation_order.1 request_c2 {} world_ok "y" rfl (by decide) rfl,
   (C2_validation_order.2 request_c2b {} world_ok rfl).1⟩

/-- C2 counterexample: a request with non-empty prompt "z", invalid
aspect_ratio "bogus" and unresolved storage fails with the storage error —
the aspect_ratio check is not reached, contradicting the claimed
prompt-then-aspect_ratio-then-storage order. -/
theorem C2_counterexample :
    (generate_image { prompt := some "z", aspect_ratio := some "bogus" } {} world_ok).1
      = .badRequest s3_config_error ∧
    s3_config_error ≠ invalid_aspect_ratio_error :=
  ⟨rfl, by decide⟩

/-- C3 (amended): request-over-environment-over-hardcoded precedence holds
for num_inference_steps (50), true_cfg_scale (4.0), seed (42) and aws_region
("us-east-1"); for negative_prompt and positive_magic the environment is
never consulted — absent from the request they take the hardcoded literal
directly. -/
theorem C3_defaulting_precedence :
    (∀ (data : Request) (env : Env) (n : Int), data.num_inference_steps = some n →
        resolve_num_inference_steps data env = n) ∧
    (∀ (data : Request) (env : Env) (n : Int), data.num_inference_steps = none →
        env.NUM_INFERENCE_STEPS = some n → resolve_num_inference_steps data env = n) ∧
    (∀ (data : Request) (env : Env), data.num_inference_steps = none →
        env.NUM_INFERENCE_STEPS = none → resolve_num_inference_steps data env = 50) ∧
    (∀ (data : Request) (env : Env) (q : Rat), data.true_cfg_scale = some q →
        resolve_true_cfg_scale data env = q) ∧
    (∀ (data : Request) (env : Env) (q : Rat), data.true_cfg_scale = none →
        env.TRUE_CFG_SCALE = some q → resolve_true_cfg_scale data env = q) ∧
    (∀ (data : Request) (env : Env), data.true_cfg_scale = none →
        env.TRUE_CFG_SCALE = none → resolve_true_cfg_scale data env = 4) ∧
    (∀ (data : Request) (env : Env) (n : Int), data.seed = some n →
        resolve_seed data env = n) ∧
    (∀ (data : Request) (env : Env) (n : Int), data.seed = none →
        env.DEFAULT_SEED = some n → resolve_seed data env = n) ∧
    (∀ (data : Request) (env : Env), data.seed = none →
        env.DEFAULT_SEED = none → resolve_seed data env = 42) ∧
    (∀ (data : Request) (env : Env) (r : String), data.aws_region = some r →
        resolve_aws_region data env = r) ∧
    (∀ (data : Request) (env : Env) (r : String), data.aws_region = none →
        env.AWS_REGION = some r → resolve_aws_region data env = r) ∧
    (∀ (data : Request) (env : Env), data.aws_region = none →
        env.AWS_REGION = none → resolve_aws_region data env = "us-east-1") ∧
    (∀ (data : Request) (s : String), data.negative_prompt = some s →
        resolve_negative_prompt data = s) ∧
    (∀ data : Request, data.negative_prompt = none →
        resolve_negative_prompt data = "ugly, deformed, disfigured, poor details, bad anatomy") ∧
    (∀ (data : Request) (s : String), data.positive_magic = some s →
        resolve_positive_magic data = s) ∧
    (∀ data : Request, data.positive_magic = none →
        resolve_positive_magic data = "Ultra HD, 4K, cinematic composition.") := by
  refine ⟨?_, ?_, ?_, ?_, ?_, ?_, ?_, ?_, ?_, ?_, ?_, ?_, ?_, ?_, ?_, ?_⟩ <;>
  · intros
    simp_all [resolve_num_inference_steps, resolve_true_cfg_scale, resolve_seed,
      resolve_aws_region, resolve_negative_prompt, resolve_positive_magic]

/-- C3 witness: the precedence chain evaluated at concrete inputs — request
value wins, else environment value, else the hardcoded literal. -/
theorem C3_defaulting_precedence_witness :
    resolve_num_inference_steps { num_inference_steps := some 20 } {} = 20 ∧
    resolve_num_inference_steps {} { NUM_INFERENCE_STEPS := some 30 } = 30 ∧
    resolve_num_inference_steps {} {} = 50 ∧
    resolve_true_cfg_scale {} {} = 4 ∧
    resolve_seed {} {} = 42 ∧
    resolve_aws_region {} {} = "us-east-1" ∧
    resolve_negative_prompt {} = "ugly, deformed, disfigured, poor details, bad anatomy" ∧
    resolve_positive_magic {} = "Ultra HD, 4K, cinematic composition." :=
  ⟨C3_defaulting_precedence.1 { num_inference_steps := some 20 } {} 20 rfl,
   C3_defaulting_precedence.2.1 {} { NUM_INFERENCE_STEPS := some 30 } 30 rfl rfl,
   C3_defaulting_precedence.2.2.1 {} {} rfl rfl,
   C3_defaulting_precedence.2.2.2.2.2.1 {} {} rfl rfl,
   C3_defaulting_precedence.2.2.2.2.2.2.2.2.1 {} {} rfl rfl,
   C3_defaulting_precedence.2.2.2.2.2.2.2.2.2.2.2.1 {} {} rfl rfl,
   C3_defaulting_precedence.2.2.2.2.2.2.2.2.2.2.2.2.2.1 {} rfl,
   C3_defaulting_precedence.2.2.2.2.2.2.2.2.2.2.2.2.2.2.2 {} rfl⟩

/-- C3 counterexample: the environment supplies defaults for negative_prompt
and positive_magic, the request omits both, yet the model receives the
hardcoded literals — the environment is never consulted for these two
fields. -/
theorem C3_counterexample :
    env_c3.NEGATIVE_PROMPT = some "nice" ∧ request_c3.negative_prompt = none ∧
    env_c3.POSITIVE_MAGIC = some "shiny" ∧ request_c3.positive_magic = none ∧
    (generate_image request_c3 env_c3 world_ok).2.gatewayCalls.map GatewayArgs.negative_prompt
      = ["ugly, deformed, disfigured, poor details, bad anatomy"] ∧
    (generate_image request_c3 env_c3 world_ok).2.gatewayCalls.map GatewayArgs.prompt
      = ["x Ultra HD, 4K, cinematic composition."] ∧
    ("ugly, deformed, disfigured, poor details, bad anatomy" : String) ≠ "nice" ∧
    ("x Ultra HD, 4K, cinematic composition." : String) ≠ "x shiny" :=
  ⟨rfl, rfl, rfl, rfl, rfl, rfl, by decide, by decide⟩

end QwenServer
